import Mathlib

/-!
Verification of the job translation and provisioning engine
(`src/rest-server/src/models/job.js`).

The JavaScript source is shallowly embedded as executable Lean
definitions:

* JS strings are modelled as `List Char`; regex anchor searches are
  modelled as the explicit leftmost substring scans the concrete
  patterns perform (the `.` of the source's regexes does not match
  line terminators, which the scans reproduce for the ASCII
  terminators `\n`/`\r`);
* JS objects used as string-keyed dictionaries are modelled as
  association lists with JS assignment semantics (overwrite in place
  if the key exists, append otherwise);
* `null`/`undefined` valued fields are modelled with `Option`
  (the two nullish values are not distinguished, as the source only
  observes them through nullish checks);
* code that can throw is modelled in `Except`; the YAML parser
  (`js-yaml`'s `safeLoad`, an external library) is a parameter
  `parse : List Char → Except ε (Option α)` where `.error` models a
  thrown `YAMLException` and `.ok none` models a parse that returns
  `undefined`;
* module level configuration (`launcherConfig`, `azureEnv`,
  `paiConfig`, the loaded exit-spec list, the mustache templates) is
  passed explicitly as a read-only `Config` record.
-/

namespace PaiJob

/-! ## JS string primitives (strings as `List Char`) -/

/-- Whitespace stripped by JS `String.prototype.trim` (ASCII part). -/
def jsIsSpace (c : Char) : Bool :=
  c = ' ' || c = '\t' || c = '\n' || c = '\r' || c = '\x0b' || c = '\x0c'

/-- JS `s.trim()`. -/
def jsTrim (s : List Char) : List Char :=
  ((s.dropWhile jsIsSpace).reverse.dropWhile jsIsSpace).reverse

/-- JS `s.substring(a, b)`: clamps to the string length and swaps the
arguments when `a > b`. -/
def jsSubstring (s : List Char) (a b : Nat) : List Char :=
  (s.take (max a b)).drop (min a b)

/-- Index of the leftmost occurrence of the literal `pat` in `s`
(`s.match` on a regex that is a literal string, or `s.indexOf`);
`none` when there is no occurrence. -/
def indexOfLit (pat : List Char) : List Char → Option Nat
  | [] => if pat.isPrefixOf [] then some 0 else none
  | c :: rest =>
    if pat.isPrefixOf (c :: rest) then some 0
    else (indexOfLit pat rest).map (· + 1)

/-- Split on a separator character, JS `s.split(sep)` (all
occurrences, empty pieces kept). -/
def splitOnChar (sep : Char) : List Char → List (List Char)
  | [] => [[]]
  | c :: rest =>
    if c = sep then [] :: splitOnChar sep rest
    else
      match splitOnChar sep rest with
      | [] => [[c]]
      | piece :: more => (c :: piece) :: more

/-! ## The four diagnostics anchors of `job.js` -/

def eceLit : List Char := "ExitCodeException exitCode".toList

def shellAnchorLit : List Char := "at org.apache.hadoop.util.Shell.runCommand".toList

def runtimeStartLit : List Char := "[PAI_RUNTIME_ERROR_START]".toList

def runtimeEndLit : List Char := "[PAI_RUNTIME_ERROR_END]".toList

/-- Distance to the first `':'` with no line terminator before it;
models the lazy `.*?:` tail of the regex
`/ExitCodeException exitCode.*?:/` (`.` does not match `\n`/`\r`). -/
def findColonSameLine : List Char → Option Nat
  | [] => none
  | c :: rest =>
    if c = ':' then some 0
    else if c = '\n' || c = '\r' then none
    else (findColonSameLine rest).map (· + 1)

/-- Leftmost match of `/ExitCodeException exitCode.*?:/` in `s`:
returns the match index and the matched length. -/
def matchECE : List Char → Option (Nat × Nat)
  | [] => none
  | c :: rest =>
    if eceLit.isPrefixOf (c :: rest) then
      match findColonSameLine ((c :: rest).drop eceLit.length) with
      | some k => some (0, eceLit.length + k + 1)
      | none => (matchECE rest).map (fun p => (p.1 + 1, p.2))
    else (matchECE rest).map (fun p => (p.1 + 1, p.2))

/-- Distance to the first position where `runtimeEndLit` starts, with
only non-line-terminator characters before it; models the lazy `.*?`
between the two markers of
`/\[PAI_RUNTIME_ERROR_START\](.*?)\[PAI_RUNTIME_ERROR_END\]/`. -/
def findEndLazy : List Char → Option Nat
  | [] => none
  | c :: rest =>
    if runtimeEndLit.isPrefixOf (c :: rest) then some 0
    else if c = '\n' || c = '\r' then none
    else (findEndLazy rest).map (· + 1)

/-- Leftmost match of the full runtime-error span regex: match index
and matched length (start marker, payload, end marker). -/
def matchRuntimeSpan : List Char → Option (Nat × Nat)
  | [] => none
  | c :: rest =>
    if runtimeStartLit.isPrefixOf (c :: rest) then
      match findEndLazy ((c :: rest).drop runtimeStartLit.length) with
      | some k =>
        some (0, runtimeStartLit.length + k + runtimeEndLit.length)
      | none => (matchRuntimeSpan rest).map (fun p => (p.1 + 1, p.2))
    else (matchRuntimeSpan rest).map (fun p => (p.1 + 1, p.2))

/-- JS `diag.replace(re, '')` for the runtime-error span regex:
removes the leftmost span match, if any. -/
def replaceRuntimeSpan (s : List Char) : List Char :=
  match matchRuntimeSpan s with
  | none => s
  | some (i, l) => s.take i ++ s.drop (i + l)

/-! ## JS objects used as string-keyed dictionaries -/

/-- Key presence test, JS `key in obj`. -/
def hasKey (l : List (String × α)) (k : String) : Bool :=
  l.any (fun p => p.1 == k)

/-- Property read, JS `obj[key]` (first binding; built objects keep
keys unique). -/
def lookupJs (l : List (String × α)) (k : String) : Option α :=
  (l.find? (fun p => p.1 == k)).map (·.2)

/-- Property assignment, JS `obj[key] = v`: overwrites the binding in
place when the key exists (keys are unique in objects built by
assignment, so replacing the first binding is the JS behaviour),
appends a new binding otherwise. -/
def insertJs : List (String × α) → String → α → List (String × α)
  | [], k, v => [(k, v)]
  | p :: rest, k, v =>
    if p.1 == k then (k, v) :: rest else p :: insertJs rest k v

/-- Build a JS object by assigning the pairs left to right into an
initially empty object. -/
def buildJsObj (pairs : List (String × α)) : List (String × α) :=
  pairs.foldl (fun acc p => insertJs acc p.1 p.2) []

/-- Number of bindings an object holds for a key (1 or 0 for objects
built by assignment). -/
def countKey (l : List (String × α)) (k : String) : Nat :=
  l.countP (fun p => p.1 == k)

/-! ## StateTranslator: `convertJobState` and `convertTaskState` -/

/-- The `switch (frameworkState)` of `convertJobState`, written as the
equivalent decision chain; `exitCode` is the possibly-absent
`applicationExitCode` (`undefined === 0` is `false` in JS, so the
`Option` faithfully models the comparisons). -/
def convertJobState (frameworkState : String) (exitCode : Option Int) :
    String :=
  if frameworkState = "FRAMEWORK_WAITING" ||
      frameworkState = "APPLICATION_CREATED" ||
      frameworkState = "APPLICATION_LAUNCHED" ||
      frameworkState = "APPLICATION_WAITING" ||
      frameworkState = "APPLICATION_RETRIEVING_DIAGNOSTICS" ||
      frameworkState = "APPLICATION_COMPLETED" then "WAITING"
  else if frameworkState = "APPLICATION_RUNNING" then "RUNNING"
  else if frameworkState = "FRAMEWORK_COMPLETED" then
    if exitCode = some 0 then "SUCCEEDED"
    else if exitCode = some (-7351) then "STOPPED"
    else "FAILED"
  else "UNKNOWN"

/-- The recognized pre-running framework states (the six `case` labels
that fall through to `'WAITING'`). -/
def preRunningStates : List String :=
  ["FRAMEWORK_WAITING", "APPLICATION_CREATED", "APPLICATION_LAUNCHED",
   "APPLICATION_WAITING", "APPLICATION_RETRIEVING_DIAGNOSTICS",
   "APPLICATION_COMPLETED"]

/-- All framework states with a `case` label in `convertJobState`. -/
def recognizedJobStates : List String :=
  preRunningStates ++ ["APPLICATION_RUNNING", "FRAMEWORK_COMPLETED"]

/-- Task-level state mapping `convertTaskState`. -/
def convertTaskState (taskState : String) (exitCode : Option Int) :
    String :=
  if taskState = "TASK_WAITING" ||
      taskState = "CONTAINER_REQUESTED" ||
      taskState = "CONTAINER_ALLOCATED" ||
      taskState = "CONTAINER_COMPLETED" then "WAITING"
  else if taskState = "CONTAINER_RUNNING" then "RUNNING"
  else if taskState = "TASK_COMPLETED" then
    if exitCode = some 0 then "SUCCEEDED" else "FAILED"
  else "UNKNOWN"

/-! ## ExitSpecTable: `exitSpecMap` and `generateExitSpec` -/

/-- One row of the loaded exit-spec list. The source only ever reads
or overwrites the `code` field; the remaining diagnostic metadata
(phrase, category, repro and remediation) is carried opaquely as a
field map, which the JS spread operator copies wholesale. -/
structure ExitSpecEntry where
  code : Int
  meta : List (String × String)
  deriving Repr, DecidableEq

def positiveFallbackExitCode : Int := 256

def negativeFallbackExitCode : Int := -8000

/-- The `exitSpecMap` object built by
`exitSpecList.forEach((val) => { exitSpecMap[val.code] = val; })`:
assignment keyed by the numeric code, later rows overwrite earlier
ones. -/
def exitSpecMapOf (l : List ExitSpecEntry) : Int → Option ExitSpecEntry :=
  l.foldl (fun m e => fun c => if c = e.code then some e else m c)
    (fun _ => none)

/-- The spread `{...entry, code}` where `entry` may be `undefined`
(spreading `undefined` contributes no fields). -/
def spreadWithCode (entry : Option ExitSpecEntry) (c : Int) :
    ExitSpecEntry :=
  { code := c, meta := match entry with | some e => e.meta | none => [] }

/-- `generateExitSpec(code)`: exact table hit, else the positive or
negative fallback row with the `code` field overwritten; `null` for a
nullish code. -/
def generateExitSpec (l : List ExitSpecEntry) (code : Option Int) :
    Option ExitSpecEntry :=
  match code with
  | none => none
  | some c =>
    match exitSpecMapOf l c with
    | some e => some e
    | none =>
      if c > 0 then
        some (spreadWithCode (exitSpecMapOf l positiveFallbackExitCode) c)
      else
        some (spreadWithCode (exitSpecMapOf l negativeFallbackExitCode) c)

/-! ## DiagnosticsExtractor -/

/-- Lodash `_.isEmpty(diag)` for a nullable string. -/
def jsStrEmpty : Option (List Char) → Bool
  | none => true
  | some s => s.isEmpty

/-- `extractContainerStderr(diag)`: the text strictly between the
`ExitCodeException exitCode...:` match and the Hadoop shell
stack-frame anchor, trimmed; nullish (`null` or the implicit
`undefined` of the missing-anchor fall-through) otherwise. -/
def extractContainerStderr (diag : Option (List Char)) :
    Option (List Char) :=
  if jsStrEmpty diag then none
  else
    match diag with
    | none => none
    | some d =>
      match matchECE d, indexOfLit shellAnchorLit d with
      | some il, some e =>
        some (jsTrim (jsSubstring d (il.1 + il.2) e))
      | _, _ => none

/-- `extractRuntimeOutput(diag)`: the trimmed text between the first
occurrences of the two runtime-error markers is handed to
`yaml.safeLoad`; the parser is passed in as `parse` (`.error` models a
thrown `YAMLException`, which the source does not catch, `.ok none`
models `undefined`). Nullish without both markers. -/
def extractRuntimeOutput (parse : List Char → Except ε (Option α))
    (diag : Option (List Char)) : Except ε (Option α) :=
  if jsStrEmpty diag then .ok none
  else
    match diag with
    | none => .ok none
    | some d =>
      match indexOfLit runtimeStartLit d, indexOfLit runtimeEndLit d with
      | some i1, some i2 =>
        parse (jsTrim (jsSubstring d (i1 + runtimeStartLit.length) i2))
      | _, _ => .ok none

/-- `extractLauncherOutput(diag)`: the diagnostics with the leftmost
runtime-error span removed, trimmed. -/
def extractLauncherOutput (diag : Option (List Char)) :
    Option (List Char) :=
  if jsStrEmpty diag then none
  else
    match diag with
    | none => none
    | some d => some (jsTrim (replaceRuntimeSpan d))

/-! ## Data model of the job specification (`data`) -/

/-- A JS value stored in the free-form `jobEnvs` map (only `=== true`
comparisons and verbatim copies are performed on them). -/
inductive JVal
  | str (s : String)
  | bool (b : Bool)
  | num (n : Int)
  deriving Repr, DecidableEq

/-- One entry of a task role's `portList`. -/
structure PortSpec where
  label : String
  beginAt : Int
  portNumber : Int
  deriving Repr, DecidableEq

/-- One task role of the submitted job specification. -/
structure TaskRole where
  name : String
  taskNumber : Int
  cpuNumber : Int
  memoryMB : Int
  gpuNumber : Int
  minFailedTaskCount : Option Int
  minSucceededTaskCount : Option Int
  portList : List PortSpec
  deriving Repr, DecidableEq

/-- The job submission payload `data` as `putJob` and the generators
consume it. `originalData_outputDir` is `data.originalData.outputDir`,
the only field of the raw snapshot the control flow reads. -/
structure JobData where
  jobName : String
  userName : String
  virtualCluster : Option String
  gpuType : Option String
  retryCount : Int
  taskRoles : List TaskRole
  jobEnvs : Option (List (String × JVal))
  authFile : String
  dataDir : String
  outputDir : String
  codeDir : String
  originalData_outputDir : Option String
  deriving Repr, DecidableEq

/-- JS falsiness of a possibly-absent string (`undefined`, `null` and
`''` are falsy). -/
def jsFalsyStr : Option String → Bool
  | none => true
  | some s => s = ""

/-! ## Configuration (module-level constants of `job.js`) -/

/-- The slice of `launcherConfig` the modelled code reads. -/
structure LauncherConfig where
  hdfsUri : String
  webhdfsUri : String
  jobConfigFileName : String
  frameworkDescriptionFilename : String
  amCpuNumber : Int
  amMemoryMB : Int
  amDiskType : Int
  amDiskMB : Int
  frameworkAggregatedStatusPath : String → String
  frameworkInfoWebhdfsPath : String → String

/-! ## DescriptorBuilder: the per-role launch scripts -/

/-- The view object handed to `mustache.render` with the yarn
container script template. -/
structure YarnView where
  idx : Nat
  tasksNumber : Int
  taskRoleList : String
  taskRolesNumber : Nat
  hdfsUri : String
  aggregatedStatusUri : String
  frameworkInfoWebhdfsUri : String
  taskData : Option TaskRole
  jobData : JobData
  inspectPidFormat : String
  jobEnvs : List (String × JVal)
  azRDMA : Bool
  isDebug : Bool
  reqAzRDMA : Bool

/-- The view object handed to `mustache.render` with the docker
container script template. -/
structure DockerView where
  idx : Nat
  hdfsUri : String
  taskData : Option TaskRole
  jobData : JobData
  webHdfsUri : String
  azRDMA : Bool
  paiMachineList : List String
  reqAzRDMA : Bool
  isDebug : Bool
  debuggingReservationSeconds : Int

/-- The read-only module configuration: `launcherConfig`, `azureEnv`,
`paiConfig`, the loaded exit-spec list, and the two mustache templates
(the external renderer applied to a fixed template is modelled as a
function from the view). -/
structure Config where
  launcher : LauncherConfig
  azRDMA : String
  machineList : List String
  debuggingReservationSeconds : Int
  defaultCreatedTime : Int
  renderYarn : YarnView → String
  renderDocker : DockerView → String
  exitSpecList : List ExitSpecEntry

/-- The check `data.jobEnvs && data.jobEnvs.key === true`. -/
def jsEnvTrue (env : Option (List (String × JVal))) (k : String) : Bool :=
  match env with
  | none => false
  | some l => lookupJs l k == some (JVal.bool true)

/-- The check `azureEnv.azRDMA === 'false' ? false : true`. -/
def azRDMAFlag (cfg : Config) : Bool := !(cfg.azRDMA == "false")

/-- `generateYarnContainerScript(data, idx)`. -/
def generateYarnContainerScript (cfg : Config) (data : JobData)
    (idx : Nat) : String :=
  let tasksNumber := data.taskRoles.foldl (fun a r => a + r.taskNumber) 0
  let jobEnvs := match data.jobEnvs with
    | some l => l
    | none => []
  cfg.renderYarn
    { idx := idx
      tasksNumber := tasksNumber
      taskRoleList := String.intercalate "," (data.taskRoles.map (·.name))
      taskRolesNumber := data.taskRoles.length
      hdfsUri := cfg.launcher.hdfsUri
      aggregatedStatusUri :=
        cfg.launcher.frameworkAggregatedStatusPath data.jobName
      frameworkInfoWebhdfsUri :=
        cfg.launcher.frameworkInfoWebhdfsPath data.jobName
      taskData := data.taskRoles[idx]?
      jobData := data
      inspectPidFormat := "\x7b\x7b.State.Pid\x7d\x7d"
      jobEnvs := jobEnvs
      azRDMA := azRDMAFlag cfg
      isDebug := jsEnvTrue data.jobEnvs "isDebug"
      reqAzRDMA := jsEnvTrue data.jobEnvs "paiAzRDMA" }

/-- `generateDockerContainerScript(data, idx)`. -/
def generateDockerContainerScript (cfg : Config) (data : JobData)
    (idx : Nat) : String :=
  cfg.renderDocker
    { idx := idx
      hdfsUri := cfg.launcher.hdfsUri
      taskData := data.taskRoles[idx]?
      jobData := data
      webHdfsUri := cfg.launcher.webhdfsUri
      azRDMA := azRDMAFlag cfg
      paiMachineList := cfg.machineList
      reqAzRDMA := jsEnvTrue data.jobEnvs "paiAzRDMA"
      isDebug := jsEnvTrue data.jobEnvs "isDebug"
      debuggingReservationSeconds := cfg.debuggingReservationSeconds }

/-! ## DescriptorBuilder: `generateFrameworkDescription` -/

/-- A port range in the descriptor's `portDefinitions`. -/
structure PortDef where
  start : Int
  count : Int
  deriving Repr, DecidableEq

/-- The `portList` object of one task role before the default-port
loop: each caller-supplied entry is assigned under its label. -/
def buildPortList (ports : List PortSpec) : List (String × PortDef) :=
  buildJsObj (ports.map (fun p => (p.label, ⟨p.beginAt, p.portNumber⟩)))

/-- The `for (let defaultPortLabel of ['http', 'ssh'])` loop: inject a
default single-port range for each reserved label not already
present. -/
def addDefaultPorts (obj : List (String × PortDef)) :
    List (String × PortDef) :=
  ["http", "ssh"].foldl
    (fun o lbl => if hasKey o lbl then o else insertJs o lbl ⟨0, 1⟩) obj

/-- The complete `portDefinitions` of one task role. -/
def rolePortDefs (r : TaskRole) : List (String × PortDef) :=
  addDefaultPorts (buildPortList r.portList)

structure TaskResource where
  cpuNumber : Int
  memoryMB : Int
  gpuNumber : Int
  portDefinitions : List (String × PortDef)
  diskType : Int
  diskMB : Int
  deriving Repr, DecidableEq

structure TaskService where
  version : Int
  entryPoint : String
  sourceLocations : List String
  resource : TaskResource
  deriving Repr, DecidableEq

structure CompletionPolicy where
  minFailedTaskCount : Option Int
  minSucceededTaskCount : Option Int
  deriving Repr, DecidableEq

structure TaskRoleDescr where
  taskNumber : Int
  taskService : TaskService
  applicationCompletionPolicy : CompletionPolicy
  deriving Repr, DecidableEq

structure AmResource where
  cpuNumber : Int
  memoryMB : Int
  diskType : Int
  diskMB : Int
  deriving Repr, DecidableEq

structure PlatformParams where
  queue : String
  taskNodeGpuType : Option String
  gangAllocation : Bool
  amResource : AmResource
  deriving Repr, DecidableEq

structure UserBlock where
  name : String
  deriving Repr, DecidableEq

structure RetryPolicyBlock where
  maxRetryCount : Int
  fancyRetryPolicy : Bool
  deriving Repr, DecidableEq

/-- The orchestration submission payload. -/
structure FrameworkDescription where
  version : Int
  user : UserBlock
  retryPolicy : RetryPolicyBlock
  taskRoles : List (String × TaskRoleDescr)
  platformSpecificParameters : PlatformParams
  deriving Repr, DecidableEq

/-- The `taskRole` object built for role `r` at index `i` of the
loop body of `generateFrameworkDescription`. -/
def mkTaskRoleDescr (data : JobData) (i : Nat) (r : TaskRole) :
    TaskRoleDescr :=
  { taskNumber := r.taskNumber
    taskService :=
      { version := 0
        entryPoint := "bash YarnContainerScripts/" ++ toString i ++ ".sh"
        sourceLocations :=
          ["/Container/" ++ data.userName ++ "/" ++ data.jobName ++
            "/YarnContainerScripts"]
        resource :=
          { cpuNumber := r.cpuNumber
            memoryMB := r.memoryMB
            gpuNumber := r.gpuNumber
            portDefinitions := rolePortDefs r
            diskType := 0
            diskMB := 0 } }
    applicationCompletionPolicy :=
      { minFailedTaskCount := r.minFailedTaskCount
        minSucceededTaskCount := r.minSucceededTaskCount } }

/-- `generateFrameworkDescription(data)`. -/
def generateFrameworkDescription (cfg : Config) (data : JobData) :
    FrameworkDescription :=
  let gpuType := match data.gpuType with
    | some s => if s = "" then none else some s
    | none => none
  let fancyRetryPolicy := decide (data.retryCount ≠ -2)
  let virtualCluster :=
    if jsFalsyStr data.virtualCluster then "default"
    else data.virtualCluster.getD "default"
  { version := 10
    user := { name := data.userName }
    retryPolicy :=
      { maxRetryCount := data.retryCount
        fancyRetryPolicy := fancyRetryPolicy }
    taskRoles :=
      buildJsObj (data.taskRoles.enum.map
        (fun p => (p.2.name, mkTaskRoleDescr data p.1 p.2)))
    platformSpecificParameters :=
      { queue := virtualCluster
        taskNodeGpuType := gpuType
        gangAllocation := true
        amResource :=
          { cpuNumber := cfg.launcher.amCpuNumber
            memoryMB := cfg.launcher.amMemoryMB
            diskType := cfg.launcher.amDiskType
            diskMB := cfg.launcher.amDiskMB } } }

/-! ## Framework status documents (the launcher's JSON) -/

/-- `aggregatedFrameworkStatus.frameworkStatus`. -/
structure FrameworkStatus where
  frameworkState : String
  applicationExitCode : Option Int
  transientNormalRetriedCount : Int
  transientConflictRetriedCount : Int
  unKnownRetriedCount : Int
  frameworkCreatedTimestamp : Option Int
  frameworkCompletedTimestamp : Option Int
  applicationId : Option String
  applicationProgress : Option String
  applicationTrackingUrl : Option String
  applicationLaunchedTimestamp : Option Int
  applicationCompletedTimestamp : Option Int
  applicationExitDiagnostics : Option (List Char)
  applicationExitTriggerMessage : Option String
  applicationExitTriggerTaskRoleName : Option String
  applicationExitTriggerTaskIndex : Option Int
  applicationExitType : Option String
  deriving Repr, DecidableEq

/-- One element of
`taskRoleStatuses[role].taskStatuses.taskStatusArray`. -/
structure TaskStatusDoc where
  taskIndex : Int
  taskState : String
  containerId : Option String
  containerIp : Option String
  containerPorts : Option (List Char)
  containerGpus : Option Int
  containerLogHttpAddress : Option String
  containerExitCode : Option Int
  deriving Repr, DecidableEq

/-- `framework.summarizedFrameworkInfo` (the fields read inside
`generateJobDetail`). -/
structure SummarizedInfo where
  executionType : Option String
  queue : Option String
  deriving Repr, DecidableEq

/-- The full framework document fetched by `getJob`. The nested
wrappers `aggregatedFrameworkStatus`, `taskStatuses.taskStatusArray`
and `aggregatedFrameworkRequest.frameworkRequest` are flattened into
field names; `frameworkDescriptor_userName` is
`frameworkRequest.frameworkDescriptor.user.name` for a present
descriptor. -/
structure Framework where
  name : String
  frameworkStatus : Option FrameworkStatus
  aggregatedTaskRoleStatuses : Option (List (String × List TaskStatusDoc))
  frameworkDescriptor_userName : Option String
  summarizedFrameworkInfo : Option SummarizedInfo
  deriving Repr, DecidableEq

/-! ## `generateJobDetail` -/

structure RetryDetails where
  user : Int
  platform : Int
  resource : Int
  deriving Repr, DecidableEq

/-- The `appExitMessages` object. -/
structure ExitMessages (α : Type) where
  container : Option (List Char)
  runtime : Option α
  launcher : Option (List Char)
  deriving Repr, DecidableEq

/-- `jobDetail.jobStatus`: starts as the empty object `{}` (all fields
nullish) and is filled in when the framework status is present; the
`username`/`virtualCluster` assignments after the block can also run
on the empty object. -/
structure JobStatus (α : Type) where
  name : Option String := none
  username : Option String := none
  state : Option String := none
  subState : Option String := none
  executionType : Option String := none
  retries : Option Int := none
  retryDetails : Option RetryDetails := none
  createdTime : Option Int := none
  completedTime : Option Int := none
  appId : Option String := none
  appProgress : Option String := none
  appTrackingUrl : Option String := none
  appLaunchedTime : Option Int := none
  appCompletedTime : Option Int := none
  appExitCode : Option Int := none
  appExitSpec : Option ExitSpecEntry := none
  appExitMessages : Option (ExitMessages α) := none
  appExitTriggerMessage : Option String := none
  appExitTriggerTaskRoleName : Option String := none
  appExitTriggerTaskIndex : Option Int := none
  appExitDiagnostics : Option (List Char) := none
  appExitType : Option String := none
  virtualCluster : Option String := none
  deriving Repr, DecidableEq

/-- One converted task status pushed into
`jobDetail.taskRoles[role].taskStatuses`. -/
structure TaskDetail where
  taskIndex : Int
  taskState : String
  containerId : Option String
  containerIp : Option String
  containerPorts : List (String × Option (List Char))
  containerGpus : Option Int
  containerLog : Option String
  containerExitCode : Option Int
  deriving Repr, DecidableEq

structure TaskRoleDetail where
  taskRoleStatus_name : String
  taskStatuses : List TaskDetail
  deriving Repr, DecidableEq

structure JobDetail (α : Type) where
  jobStatus : JobStatus α
  taskRoles : List (String × TaskRoleDetail)
  deriving Repr, DecidableEq

/-- Errors escaping `generateJobDetail`: a `YAMLException` from the
uncaught `yaml.safeLoad` in `extractRuntimeOutput`, or a `TypeError`
from dereferencing a missing `summarizedFrameworkInfo`. -/
inductive GenErr (ε : Type)
  | parseErr (e : ε)
  | typeErr
  deriving Repr, DecidableEq

/-- The `containerPorts` parsing loop: split on `';'`, keep the
non-empty pieces, assign `port[0] -> port[1]` of the `':'` split. -/
def parseContainerPorts (cp : Option (List Char)) :
    List (String × Option (List Char)) :=
  match cp with
  | none => []
  | some s =>
    (splitOnChar ';' s).foldl
      (fun acc portStr =>
        if portStr.length > 0 then
          let port := splitOnChar ':' portStr
          insertJs acc (port.headD []).asString port[1]?
        else acc)
      []

/-- The per-task conversion pushed by the `taskRoleStatuses` loop. -/
def convertTaskStatus (t : TaskStatusDoc) : TaskDetail :=
  { taskIndex := t.taskIndex
    taskState := convertTaskState t.taskState t.containerExitCode
    containerId := t.containerId
    containerIp := t.containerIp
    containerPorts := parseContainerPorts t.containerPorts
    containerGpus := t.containerGpus
    containerLog := t.containerLogHttpAddress
    containerExitCode := t.containerExitCode }

/-- The `jobDetail.jobStatus` record built inside the
`if (frameworkStatus)` block of `generateJobDetail`, given the values
of the two sub-expressions that can throw (`executionType` from the
summarized info and `runtime` from the YAML load). -/
def mkJobStatusFromStatus (fwName : String)
    (exitSpecList : List ExitSpecEntry) (fs : FrameworkStatus)
    (executionType : Option String) (runtime : Option α) :
    JobStatus α :=
  let platformRetries := fs.transientNormalRetriedCount
  let resourceRetries := fs.transientConflictRetriedCount
  let userRetries := fs.unKnownRetriedCount
  { name := some fwName
    username := some "unknown"
    state := some (convertJobState fs.frameworkState
      fs.applicationExitCode)
    subState := some fs.frameworkState
    executionType := executionType
    retries := some (platformRetries + resourceRetries + userRetries)
    retryDetails := some
      { user := userRetries
        platform := platformRetries
        resource := resourceRetries }
    createdTime := fs.frameworkCreatedTimestamp
    completedTime := fs.frameworkCompletedTimestamp
    appId := fs.applicationId
    appProgress := fs.applicationProgress
    appTrackingUrl := fs.applicationTrackingUrl
    appLaunchedTime := fs.applicationLaunchedTimestamp
    appCompletedTime := fs.applicationCompletedTimestamp
    appExitCode := fs.applicationExitCode
    appExitSpec := generateExitSpec exitSpecList fs.applicationExitCode
    appExitMessages := some
      { container := extractContainerStderr fs.applicationExitDiagnostics
        runtime := runtime
        launcher := extractLauncherOutput fs.applicationExitDiagnostics }
    appExitTriggerMessage := fs.applicationExitTriggerMessage
    appExitTriggerTaskRoleName := fs.applicationExitTriggerTaskRoleName
    appExitTriggerTaskIndex := fs.applicationExitTriggerTaskIndex
    appExitDiagnostics := fs.applicationExitDiagnostics
    appExitType := fs.applicationExitType }

/-- The two assignments after the `if (frameworkStatus)` block:
`username` from the framework request's descriptor and
`virtualCluster` from the summarized info, each only when present. -/
def jobStatusPost (fw : Framework) (js : JobStatus α) : JobStatus α :=
  let js1 := match fw.frameworkDescriptor_userName with
    | some u => { js with username := some u }
    | none => js
  match fw.summarizedFrameworkInfo with
  | some i => { js1 with virtualCluster := i.queue }
  | none => js1

/-- The `taskRoleStatuses` loop of `generateJobDetail`. -/
def jobTaskRoles (fw : Framework) : List (String × TaskRoleDetail) :=
  match fw.aggregatedTaskRoleStatuses with
  | none => []
  | some trs =>
    trs.map (fun p =>
      (p.1, { taskRoleStatus_name := p.1
              taskStatuses := p.2.map convertTaskStatus }))

/-- `generateJobDetail(framework)`. The body can throw (modelled in
`Except`): dereferencing `summarizedFrameworkInfo.executionType`
throws when the summary is nullish, and `extractRuntimeOutput` lets
the YAML parse error escape; without a framework status the block is
skipped and `jobStatus` stays the empty object. -/
def generateJobDetail (parse : List Char → Except ε (Option α))
    (exitSpecList : List ExitSpecEntry) (fw : Framework) :
    Except (GenErr ε) (JobDetail α) :=
  match fw.frameworkStatus with
  | none =>
    .ok { jobStatus := jobStatusPost fw {}, taskRoles := jobTaskRoles fw }
  | some fs =>
    match fw.summarizedFrameworkInfo with
    | none => .error GenErr.typeErr
    | some i =>
      match extractRuntimeOutput parse fs.applicationExitDiagnostics with
      | .error e => .error (GenErr.parseErr e)
      | .ok runtime =>
        .ok { jobStatus := jobStatusPost fw
                (mkJobStatusFromStatus fw.name exitSpecList fs
                  i.executionType runtime)
              taskRoles := jobTaskRoles fw }

/-- The HTTP-200 branch of `getJob`: `generateJobDetail` inside
`try`, `next(detail, null)` on success and `next(null, error)` when
it throws. -/
def getJobOn200 (parse : List Char → Except ε (Option α))
    (exitSpecList : List ExitSpecEntry) (fw : Framework) :
    Option (JobDetail α) × Option (GenErr ε) :=
  match generateJobDetail parse exitSpecList fw with
  | .ok d => (some d, none)
  | .error e => (none, some e)

/-! ## `getJobList`: the per-framework summary -/

/-- One element of `summarizedFrameworkInfos`. -/
structure FrameworkInfo where
  frameworkName : String
  userName : String
  frameworkState : String
  applicationExitCode : Option Int
  executionType : Option String
  transientNormalRetriedCount : Int
  transientConflictRetriedCount : Int
  unKnownRetriedCount : Int
  firstRequestTimestamp : Option Int
  frameworkCompletedTimestamp : Option Int
  queue : Option String
  totalGpuNumber : Int
  totalTaskNumber : Int
  totalTaskRoleNumber : Int
  deriving Repr, DecidableEq

/-- The summary record built by the `map` of `getJobList`. -/
structure JobSummary where
  name : String
  username : String
  state : String
  subState : String
  executionType : Option String
  retries : Int
  retryDetails : RetryDetails
  createdTime : Int
  completedTime : Option Int
  appExitCode : Option Int
  virtualCluster : Option String
  totalGpuNumber : Int
  totalTaskNumber : Int
  totalTaskRoleNumber : Int
  jobNamespace : Option String := none
  legacy : Bool := false
  deriving Repr, DecidableEq

/-- JS `x || d` for a nullable number (`null`, `undefined` and `0` are
falsy). -/
def jsOrInt (x : Option Int) (d : Int) : Int :=
  match x with
  | some t => if t = 0 then d else t
  | none => d

/-- The body of
`resJson.summarizedFrameworkInfos.map((frameworkInfo) => ...)`,
including the namespace-tilde rewrite of the job name. -/
def summarizeFrameworkInfo (cfg : Config) (info : FrameworkInfo) :
    JobSummary :=
  let platformRetries := info.transientNormalRetriedCount
  let resourceRetries := info.transientConflictRetriedCount
  let userRetries := info.unKnownRetriedCount
  let job : JobSummary :=
    { name := info.frameworkName
      username := info.userName
      state := convertJobState info.frameworkState info.applicationExitCode
      subState := info.frameworkState
      executionType := info.executionType
      retries := platformRetries + resourceRetries + userRetries
      retryDetails :=
        { user := userRetries
          platform := platformRetries
          resource := resourceRetries }
      createdTime := jsOrInt info.firstRequestTimestamp
        cfg.defaultCreatedTime
      completedTime := info.frameworkCompletedTimestamp
      appExitCode := info.applicationExitCode
      virtualCluster := info.queue
      totalGpuNumber := info.totalGpuNumber
      totalTaskNumber := info.totalTaskNumber
      totalTaskRoleNumber := info.totalTaskRoleNumber }
  match (job.name.toList).findIdx? (· = '~') with
  | some tildeIndex =>
    let ns := (job.name.toList.take tildeIndex).asString
    let shortName := (job.name.toList.drop (tildeIndex + 1)).asString
    let job := if ns ≠ job.username then
        { job with jobNamespace := some ns }
      else job
    { job with name := shortName }
  | none => { job with legacy := true }

/-! ## `putJob`: the in-place normalization of `data` -/

/-- Is `c` in the JS regex class `[\w\d]` (equivalently `\w`)? Used by
the negative lookahead of the placeholder regexes. -/
def isWordChar (c : Char) : Bool :=
  ('a' ≤ c && c ≤ 'z') || ('A' ≤ c && c ≤ 'Z') ||
    ('0' ≤ c && c ≤ '9') || c = '_'

/-- Does the placeholder boundary `(?![\w\d])` hold at the start of
`rest`? -/
def boundaryOk (rest : List Char) : Bool :=
  match rest with
  | [] => true
  | c :: _ => !isWordChar c

/-- JS `s.replace(lit, repl)` with a string pattern: first occurrence
only (the `$`-escape expansion of the replacement is not modelled; the
replacement values in scope contain no `$&`-style escapes). -/
def replaceFirstLit (lit repl : List Char) : List Char → List Char
  | [] => []
  | c :: rest =>
    if lit.isPrefixOf (c :: rest) then
      repl ++ (c :: rest).drop lit.length
    else c :: replaceFirstLit lit repl rest

/-- Scanner for the global placeholder replace: `skip` counts
characters still belonging to an already-replaced match (JS `/g`
resumes scanning after the matched text); at `skip = 0` the literal
alternatives are tried in regex order and a match emits the
replacement and skips the rest of the matched literal. -/
def replaceAllWBGo (lits : List (List Char)) (repl : List Char) :
    Nat → List Char → List Char
  | _, [] => []
  | Nat.succ skip, _ :: rest => replaceAllWBGo lits repl skip rest
  | 0, c :: rest =>
    match lits.find? (fun lit =>
        lit.isPrefixOf (c :: rest) &&
          boundaryOk ((c :: rest).drop lit.length)) with
    | some lit => repl ++ replaceAllWBGo lits repl (lit.length - 1) rest
    | none => c :: replaceAllWBGo lits repl 0 rest

/-- JS `s.replace(re, repl)` for a global regex that is one of one or
two literal alternatives followed by the negative lookahead
`(?![\w\d])`: scans left to right, replaces every match, and does not
rescan replacement text. -/
def replaceAllWB (lits : List (List Char)) (repl : List Char)
    (s : List Char) : List Char :=
  replaceAllWBGo lits repl 0 s

/-- The three placeholder rewrites applied to one path field of
`data` (in source order). -/
def substPlaceholders (hdfsUri name userName : String) (s : String) :
    String :=
  let s1 := replaceFirstLit "$PAI_DEFAULT_FS_URI".toList hdfsUri.toList
    s.toList
  let s2 := replaceAllWB ["$PAI_JOB_NAME".toList] name.toList s1
  let s3 := replaceAllWB ["$PAI_USER_NAME".toList, "$PAI_USERNAME".toList]
    userName.toList s2
  s3.asString

/-- The mutations `putJob` performs on `data` before any asynchronous
call: the namespace-qualified `jobName` is stamped on, `outputDir` is
defaulted when the original submission had none, and the placeholder
rewrites run over the four path fields. -/
def putJobPrepare (hdfsUri : String) (name : String)
    (namespaceOpt : Option String) (data : JobData) : JobData :=
  let frameworkName := match namespaceOpt with
    | some ns => ns ++ "~" ++ name
    | none => name
  let d1 := { data with jobName := frameworkName }
  let d2 :=
    if jsFalsyStr d1.originalData_outputDir then
      { d1 with outputDir :=
          hdfsUri ++ "/Output/" ++ d1.userName ++ "/" ++ name }
    else d1
  { d2 with
    authFile := substPlaceholders hdfsUri name d2.userName d2.authFile
    dataDir := substPlaceholders hdfsUri name d2.userName d2.dataDir
    outputDir := substPlaceholders hdfsUri name d2.userName d2.outputDir
    codeDir := substPlaceholders hdfsUri name d2.userName d2.codeDir }

/-! ## ContextProvisioner: `_prepareJobContext` -/

/-- The first error in a list of sub-task results (`none` means the
sub-task called back with a `null` error). -/
def firstErr (l : List (Option ε)) : Option ε :=
  l.foldr (fun e acc => match e with | some x => some x | none => acc) none

/-- Outcomes of the external operations `_prepareJobContext` performs,
one field per distributed-store call or keygen invocation; `none`
models a `null` error from the store. -/
structure PrepareEnv (ε : Type) where
  outputFolderErr : Option ε
  logFolderErr : Option ε
  tmpFolderErr : Option ε
  yarnScriptErr : Nat → Option ε
  dockerScriptErr : Nat → Option ε
  jobConfigErr : Option ε
  frameworkFileErr : Option ε
  platformIsLinux : Bool
  keygenResult : Except ε (String × String)
  sshFileErr : String → Option ε

/-- Sub-task (a): create the job output folder, skipped when the
original submission supplied an `outputDir`. -/
def outputFolderTask (env : PrepareEnv ε) (data : JobData) : Option ε :=
  if jsFalsyStr data.originalData_outputDir then env.outputFolderErr
  else none

/-- Sub-task (b): `async.each(['log', 'tmp'], ...)` folder creation
(the callback receives an error iff some element errored; which of
several concurrent errors wins is abstracted to list order). -/
def logTmpTask (env : PrepareEnv ε) : Option ε :=
  firstErr [env.logFolderErr, env.tmpFolderErr]

/-- Sub-task (c): upload one yarn container script per task role. -/
def yarnScriptsTask (env : PrepareEnv ε) (data : JobData) : Option ε :=
  firstErr ((List.range data.taskRoles.length).map env.yarnScriptErr)

/-- Sub-task (d): upload one docker container script per task role. -/
def dockerScriptsTask (env : PrepareEnv ε) (data : JobData) : Option ε :=
  firstErr ((List.range data.taskRoles.length).map env.dockerScriptErr)

/-- Sub-task (g): the SSH branch. Off Linux the callback succeeds
immediately; a keygen error is logged and swallowed
(`parallelCallback(null)`); with generated keys the two key-file
uploads run and their error propagates. -/
def sshTask (env : PrepareEnv ε) (name : String) : Option ε :=
  if env.platformIsLinux then
    match env.keygenResult with
    | .error _ => none
    | .ok _ =>
      firstErr [env.sshFileErr (name ++ ".pub"), env.sshFileErr name]
  else none

/-- The results of the six required sub-tasks (output folder, log/tmp
folders, both script uploads, the two config snapshots), in source
order. -/
def requiredTaskErrs (env : PrepareEnv ε) (data : JobData) :
    List (Option ε) :=
  [outputFolderTask env data, logTmpTask env,
   yarnScriptsTask env data, dockerScriptsTask env data,
   env.jobConfigErr, env.frameworkFileErr]

/-- The error handed to `_prepareJobContext`'s final callback: the
`async.parallel` join over the seven sub-tasks (`none` = overall
success; which of several concurrent errors wins is abstracted to
list order). -/
def prepareJobContextErr (env : PrepareEnv ε) (name : String)
    (data : JobData) : Option ε :=
  firstErr (requiredTaskErrs env data ++ [sshTask env name])

/-! ## Claim theorems -/

/-- C1: `convertJobState` maps each recognized pre-running state to
WAITING for every exit code, APPLICATION_RUNNING to RUNNING,
FRAMEWORK_COMPLETED to SUCCEEDED / STOPPED / FAILED according to the
exit code (0, the stop sentinel -7351, anything else), and every
unrecognized state string to UNKNOWN; the function is pure and total
(it is a total Lean function). -/
theorem convertJobState_spec (s : String) (ec : Option Int) :
    (s ∈ preRunningStates → convertJobState s ec = "WAITING") ∧
    convertJobState "APPLICATION_RUNNING" ec = "RUNNING" ∧
    convertJobState "FRAMEWORK_COMPLETED" (some 0) = "SUCCEEDED" ∧
    convertJobState "FRAMEWORK_COMPLETED" (some (-7351)) = "STOPPED" ∧
    (ec ≠ some 0 → ec ≠ some (-7351) →
      convertJobState "FRAMEWORK_COMPLETED" ec = "FAILED") ∧
    (s ∉ recognizedJobStates → convertJobState s ec = "UNKNOWN") := by
  refine ⟨?_, by simp [convertJobState], by simp [convertJobState],
    by simp [convertJobState], ?_, ?_⟩
  · intro h
    simp only [preRunningStates, List.mem_cons, List.not_mem_nil,
      or_false] at h
    rcases h with h | h | h | h | h | h <;> subst h <;>
      simp [convertJobState]
  · intro h0 h1
    simp [convertJobState, h0, h1]
  · intro h
    simp only [recognizedJobStates, preRunningStates, List.mem_append,
      List.mem_cons, List.not_mem_nil, or_false, not_or] at h
    obtain ⟨⟨h1, h2, h3, h4, h5, h6⟩, h7, h8⟩ := h
    simp [convertJobState, h1, h2, h3, h4, h5, h6, h7, h8]

/-- Witness for C1 at concrete inputs. -/
theorem convertJobState_spec_witness :
    ("APPLICATION_CREATED" ∈ preRunningStates ∧
      convertJobState "APPLICATION_CREATED" (some 9) = "WAITING") ∧
    ((some 7 : Option Int) ≠ some 0 ∧ (some 7 : Option Int) ≠ some (-7351) ∧
      convertJobState "FRAMEWORK_COMPLETED" (some 7) = "FAILED") ∧
    ("BOGUS" ∉ recognizedJobStates ∧
      convertJobState "BOGUS" none = "UNKNOWN") := by
  refine ⟨⟨by decide, (convertJobState_spec "APPLICATION_CREATED"
      (some 9)).1 (by decide)⟩,
    ⟨by decide, by decide,
      ((convertJobState_spec "FRAMEWORK_COMPLETED" (some 7)).2.2.2.2.1
        (by decide) (by decide))⟩,
    ⟨by decide, (convertJobState_spec "BOGUS" none).2.2.2.2.2
      (by decide)⟩⟩

/-- C2: `generateExitSpec` returns the exact table row on a hit; on a
miss with positive code it returns the positive fallback row with the
`code` field overwritten to the queried code, on a miss with
non-positive code the negative fallback row with the `code` field
overwritten; and a nullish code yields `null`. -/
theorem generateExitSpec_spec (l : List ExitSpecEntry) (c : Int)
    (e fbP fbN : ExitSpecEntry) :
    (exitSpecMapOf l c = some e → generateExitSpec l (some c) = some e) ∧
    (exitSpecMapOf l c = none → 0 < c →
      exitSpecMapOf l positiveFallbackExitCode = some fbP →
      generateExitSpec l (some c) = some { fbP with code := c }) ∧
    (exitSpecMapOf l c = none → c ≤ 0 →
      exitSpecMapOf l negativeFallbackExitCode = some fbN →
      generateExitSpec l (some c) = some { fbN with code := c }) ∧
    generateExitSpec l none = none := by
  refine ⟨?_, ?_, ?_, rfl⟩
  · intro h
    simp [generateExitSpec, h]
  · intro h hpos hfb
    simp [generateExitSpec, h, hfb, spreadWithCode, hpos]
  · intro h hnonpos hfb
    have : ¬(c > 0) := by omega
    simp [generateExitSpec, h, hfb, spreadWithCode, this]

/-- Witness for C2: a three-row table exercising the hit, the positive
miss at 5000 and the negative miss at -1. -/
theorem generateExitSpec_spec_witness :
    (exitSpecMapOf [⟨177, [("phrase", "u")]⟩, ⟨256, [("phrase", "p")]⟩,
        ⟨-8000, [("phrase", "n")]⟩] 177 = some ⟨177, [("phrase", "u")]⟩ ∧
      generateExitSpec [⟨177, [("phrase", "u")]⟩, ⟨256, [("phrase", "p")]⟩,
        ⟨-8000, [("phrase", "n")]⟩] (some 177) =
        some ⟨177, [("phrase", "u")]⟩) ∧
    (generateExitSpec [⟨177, [("phrase", "u")]⟩, ⟨256, [("phrase", "p")]⟩,
        ⟨-8000, [("phrase", "n")]⟩] (some 5000) =
        some ⟨5000, [("phrase", "p")]⟩) ∧
    (generateExitSpec [⟨177, [("phrase", "u")]⟩, ⟨256, [("phrase", "p")]⟩,
        ⟨-8000, [("phrase", "n")]⟩] (some (-1)) =
        some ⟨-1, [("phrase", "n")]⟩) ∧
    generateExitSpec [⟨177, [("phrase", "u")]⟩] none = none := by
  refine ⟨⟨by decide, (generateExitSpec_spec _ 177 ⟨177, [("phrase", "u")]⟩
      ⟨256, [("phrase", "p")]⟩ ⟨-8000, [("phrase", "n")]⟩).1
      (by decide)⟩, ?_, ?_,
    (generateExitSpec_spec [⟨177, [("phrase", "u")]⟩] 0 ⟨0, []⟩ ⟨0, []⟩
      ⟨0, []⟩).2.2.2⟩
  · exact (generateExitSpec_spec _ 5000 ⟨0, []⟩ ⟨256, [("phrase", "p")]⟩
      ⟨-8000, [("phrase", "n")]⟩).2.1 (by decide) (by decide) (by decide)
  · exact (generateExitSpec_spec _ (-1) ⟨0, []⟩ ⟨256, [("phrase", "p")]⟩
      ⟨-8000, [("phrase", "n")]⟩).2.2.1 (by decide) (by decide) (by decide)

/-! ## Concrete fixtures used by witnesses and counterexamples -/

def lcfg0 : LauncherConfig :=
  { hdfsUri := "hdfs://ns"
    webhdfsUri := "http://wh:50070"
    jobConfigFileName := "JobConfig.json"
    frameworkDescriptionFilename := "FrameworkDescription.json"
    amCpuNumber := 1
    amMemoryMB := 1024
    amDiskType := 0
    amDiskMB := 0
    frameworkAggregatedStatusPath := fun n => "/fw/" ++ n ++ "/status"
    frameworkInfoWebhdfsPath := fun n => "/info/" ++ n }

def cfg0 : Config :=
  { launcher := lcfg0
    azRDMA := "false"
    machineList := ["m1"]
    debuggingReservationSeconds := 60
    defaultCreatedTime := 1517443200000
    renderYarn := fun v => v.taskRoleList ++ "|" ++ toString v.idx
    renderDocker := fun v => v.hdfsUri ++ "|" ++ toString v.idx
    exitSpecList := [] }

def role0 : TaskRole :=
  { name := "master", taskNumber := 1, cpuNumber := 2, memoryMB := 4096
    gpuNumber := 0, minFailedTaskCount := some 1
    minSucceededTaskCount := none, portList := [⟨"web", 20, 1⟩] }

def role1 : TaskRole :=
  { name := "worker", taskNumber := 2, cpuNumber := 4, memoryMB := 8192
    gpuNumber := 1, minFailedTaskCount := some 1
    minSucceededTaskCount := some 2, portList := [⟨"http", 5, 3⟩] }

def data0 : JobData :=
  { jobName := "alice~j1"
    userName := "alice"
    virtualCluster := none
    gpuType := none
    retryCount := 3
    taskRoles := [role0, role1]
    jobEnvs := some [("isDebug", JVal.bool true)]
    authFile := ""
    dataDir := "$PAI_DEFAULT_FS_URI/data/$PAI_JOB_NAME"
    outputDir := "hdfs://ns/Output/alice/j1"
    codeDir := "$PAI_USER_NAME/code"
    originalData_outputDir := none }

/-- C5: `generateFrameworkDescription` and the two per-role script
generators are deterministic: under a fixed configuration, deep-equal
job specifications produce byte-identical descriptors and scripts. The
engine's state is fully explicit in the embedding (the only inputs are
the configuration and the job data), so determinism is congruence. -/
theorem buildDescriptor_deterministic (cfg : Config) (d1 d2 : JobData)
    (h : d1 = d2) :
    generateFrameworkDescription cfg d1 = generateFrameworkDescription cfg d2 ∧
    (∀ i, generateYarnContainerScript cfg d1 i =
      generateYarnContainerScript cfg d2 i) ∧
    (∀ i, generateDockerContainerScript cfg d1 i =
      generateDockerContainerScript cfg d2 i) := by
  subst h
  exact ⟨rfl, fun _ => rfl, fun _ => rfl⟩

/-- Witness for C5 at the concrete fixture. -/
theorem buildDescriptor_deterministic_witness :
    data0 = data0 ∧
    generateFrameworkDescription cfg0 data0 =
      generateFrameworkDescription cfg0 data0 ∧
    generateYarnContainerScript cfg0 data0 0 =
      generateYarnContainerScript cfg0 data0 0 ∧
    generateDockerContainerScript cfg0 data0 1 =
      generateDockerContainerScript cfg0 data0 1 := by
  obtain ⟨h1, h2, h3⟩ := buildDescriptor_deterministic cfg0 data0 data0 rfl
  exact ⟨rfl, h1, h2 0, h3 1⟩

/-! ## C6: total retries is the sum of the three sub-counters -/

theorem summarize_retries_fields (cfg : Config) (info : FrameworkInfo) :
    (summarizeFrameworkInfo cfg info).retries =
      info.transientNormalRetriedCount +
        info.transientConflictRetriedCount + info.unKnownRetriedCount ∧
    (summarizeFrameworkInfo cfg info).retryDetails =
      ⟨info.unKnownRetriedCount, info.transientNormalRetriedCount,
        info.transientConflictRetriedCount⟩ := by
  constructor <;>
  · dsimp only [summarizeFrameworkInfo]
    split
    · split <;> rfl
    · rfl

theorem jobStatusPost_retries (fw : Framework) (js : JobStatus α) :
    (jobStatusPost fw js).retries = js.retries ∧
    (jobStatusPost fw js).retryDetails = js.retryDetails := by
  unfold jobStatusPost
  split <;> split <;> exact ⟨rfl, rfl⟩

/-- C6: the reported total retry count equals the sum
platform + resource + user of the sub-counters reported next to it in
`retryDetails`, both in the `getJobList` summaries and in the job
status built by `generateJobDetail`. -/
theorem retries_total_eq_sum {ε α : Type} (cfg : Config)
    (info : FrameworkInfo) (parse : List Char → Except ε (Option α))
    (l : List ExitSpecEntry) (fw : Framework) (fs : FrameworkStatus)
    (d : JobDetail α)
    (hinfo1 : 0 ≤ info.transientNormalRetriedCount)
    (hinfo2 : 0 ≤ info.transientConflictRetriedCount)
    (hinfo3 : 0 ≤ info.unKnownRetriedCount)
    (hfs1 : 0 ≤ fs.transientNormalRetriedCount)
    (hfs2 : 0 ≤ fs.transientConflictRetriedCount)
    (hfs3 : 0 ≤ fs.unKnownRetriedCount) :
    ((summarizeFrameworkInfo cfg info).retries =
      (summarizeFrameworkInfo cfg info).retryDetails.platform +
        (summarizeFrameworkInfo cfg info).retryDetails.resource +
        (summarizeFrameworkInfo cfg info).retryDetails.user) ∧
    (fw.frameworkStatus = some fs →
      generateJobDetail parse l fw = .ok d →
      ∀ t rd, d.jobStatus.retries = some t →
        d.jobStatus.retryDetails = some rd →
        t = rd.platform + rd.resource + rd.user) := by
  constructor
  · obtain ⟨h1, h2⟩ := summarize_retries_fields cfg info
    rw [h1, h2]
  · intro hst hd t rd ht hrd
    unfold generateJobDetail at hd
    simp only [hst] at hd
    cases hi : fw.summarizedFrameworkInfo with
    | none => simp only [hi] at hd; exact Except.noConfusion hd
    | some i =>
      simp only [hi] at hd
      cases hr : extractRuntimeOutput parse fs.applicationExitDiagnostics with
      | error e => simp only [hr] at hd; exact Except.noConfusion hd
      | ok runtime =>
        simp only [hr] at hd
        have hd' := Except.ok.inj hd
        subst hd'
        obtain ⟨p1, p2⟩ := jobStatusPost_retries fw
          (mkJobStatusFromStatus fw.name l fs i.executionType runtime)
        rw [p1] at ht
        rw [p2] at hrd
        simp only [mkJobStatusFromStatus] at ht hrd
        have ht' := Option.some.inj ht
        have hrd' := Option.some.inj hrd
        subst hrd'
        rw [← ht']

/-- Fixtures for the C6 witness: a running framework with sub-counters
1 (platform), 2 (resource), 3 (user). -/
def fs0 : FrameworkStatus :=
  { frameworkState := "APPLICATION_RUNNING"
    applicationExitCode := none
    transientNormalRetriedCount := 1
    transientConflictRetriedCount := 2
    unKnownRetriedCount := 3
    frameworkCreatedTimestamp := some 100
    frameworkCompletedTimestamp := none
    applicationId := some "app_1"
    applicationProgress := none
    applicationTrackingUrl := none
    applicationLaunchedTimestamp := some 120
    applicationCompletedTimestamp := none
    applicationExitDiagnostics := none
    applicationExitTriggerMessage := none
    applicationExitTriggerTaskRoleName := none
    applicationExitTriggerTaskIndex := none
    applicationExitType := none }

def fw0 : Framework :=
  { name := "alice~j1"
    frameworkStatus := some fs0
    aggregatedTaskRoleStatuses := none
    frameworkDescriptor_userName := some "alice"
    summarizedFrameworkInfo := some ⟨some "START", some "default"⟩ }

def parse0 : List Char → Except Unit (Option Unit) := fun _ => .ok none

def info0 : FrameworkInfo :=
  { frameworkName := "alice~j1"
    userName := "alice"
    frameworkState := "APPLICATION_RUNNING"
    applicationExitCode := none
    executionType := some "START"
    transientNormalRetriedCount := 1
    transientConflictRetriedCount := 2
    unKnownRetriedCount := 3
    firstRequestTimestamp := some 100
    frameworkCompletedTimestamp := none
    queue := some "default"
    totalGpuNumber := 1
    totalTaskNumber := 3
    totalTaskRoleNumber := 2 }

/-- The job detail `generateJobDetail` produces for `fw0`. -/
def detail0 : JobDetail Unit :=
  { jobStatus := jobStatusPost fw0
      (mkJobStatusFromStatus fw0.name [] fs0 (some "START") none)
    taskRoles := jobTaskRoles fw0 }

/-- Witness for C6 at concrete inputs. -/
theorem retries_total_eq_sum_witness :
    (fw0.frameworkStatus = some fs0 ∧
      generateJobDetail parse0 [] fw0 = .ok detail0 ∧
      detail0.jobStatus.retries = some 6 ∧
      detail0.jobStatus.retryDetails = some ⟨3, 1, 2⟩ ∧
      (6 : Int) = 1 + 2 + 3) ∧
    ((summarizeFrameworkInfo cfg0 info0).retries =
      (summarizeFrameworkInfo cfg0 info0).retryDetails.platform +
        (summarizeFrameworkInfo cfg0 info0).retryDetails.resource +
        (summarizeFrameworkInfo cfg0 info0).retryDetails.user) := by
  have h := retries_total_eq_sum cfg0 info0 parse0 [] fw0 fs0 detail0
    (by decide) (by decide) (by decide) (by decide) (by decide) (by decide)
  exact ⟨⟨rfl, rfl, rfl, rfl,
    h.2 rfl rfl 6 ⟨3, 1, 2⟩ rfl rfl⟩, h.1⟩

/-! ## C9: exit diagnosis versus terminal states -/

theorem jobStatusPost_appExitSpec (fw : Framework) (js : JobStatus α) :
    (jobStatusPost fw js).appExitSpec = js.appExitSpec := by
  unfold jobStatusPost
  split <;> split <;> rfl

/-- A status document that is still running but carries an exit code:
`generateJobDetail` stamps a fallback exit spec on it even though the
translated state is RUNNING. -/
def fs9 : FrameworkStatus :=
  { fs0 with applicationExitCode := some 1 }

def fw9 : Framework :=
  { fw0 with frameworkStatus := some fs9 }

def detail9 : JobDetail Unit :=
  { jobStatus := jobStatusPost fw9
      (mkJobStatusFromStatus fw9.name [] fs9 (some "START") none)
    taskRoles := jobTaskRoles fw9 }

/-- Counterexample to C9: a framework status whose translated state is
RUNNING (not terminal) but whose `appExitSpec` is a populated fallback
entry, because the document carries `applicationExitCode = 1` and
`generateExitSpec` keys off the exit code alone, not the state. -/
theorem jobDetail_exitSpec_nonterminal_counterexample :
    generateJobDetail parse0 [] fw9 = .ok detail9 ∧
    detail9.jobStatus.state = some "RUNNING" ∧
    detail9.jobStatus.appExitSpec = some ⟨1, []⟩ := by
  refine ⟨rfl, by decide, by decide⟩

/-- C9 (amended): the job detail carries no exit diagnosis exactly
when the status document carries no exit code: `appExitSpec` is
nullish whenever `applicationExitCode` is nullish (which is the case
for the launcher's non-terminal documents), and is populated whenever
an exit code is present, terminal state or not. -/
theorem jobDetail_exitSpec_iff_exitCode {ε α : Type}
    (parse : List Char → Except ε (Option α)) (l : List ExitSpecEntry)
    (fw : Framework) (fs : FrameworkStatus) (d : JobDetail α)
    (hst : fw.frameworkStatus = some fs)
    (hd : generateJobDetail parse l fw = .ok d) :
    (fs.applicationExitCode = none → d.jobStatus.appExitSpec = none) ∧
    (∀ c, fs.applicationExitCode = some c →
      (d.jobStatus.appExitSpec).isSome = true) := by
  unfold generateJobDetail at hd
  simp only [hst] at hd
  cases hi : fw.summarizedFrameworkInfo with
  | none => simp only [hi] at hd; exact Except.noConfusion hd
  | some i =>
    simp only [hi] at hd
    cases hr : extractRuntimeOutput parse fs.applicationExitDiagnostics with
    | error e => simp only [hr] at hd; exact Except.noConfusion hd
    | ok runtime =>
      simp only [hr] at hd
      have hd' := Except.ok.inj hd
      subst hd'
      rw [jobStatusPost_appExitSpec fw
        (mkJobStatusFromStatus fw.name l fs i.executionType runtime)]
      simp only [mkJobStatusFromStatus]
      constructor
      · intro hc
        simp [generateExitSpec, hc]
      · intro c hc
        rw [hc]
        unfold generateExitSpec
        cases h' : exitSpecMapOf l c with
        | none => by_cases h : c > 0 <;> simp [h', h]
        | some e => simp [h']

/-- Witness for the amended C9: the running fixture without an exit
code gets a nullish `appExitSpec`. -/
theorem jobDetail_exitSpec_iff_exitCode_witness :
    fw0.frameworkStatus = some fs0 ∧
    generateJobDetail parse0 [] fw0 = .ok detail0 ∧
    fs0.applicationExitCode = none ∧
    detail0.jobStatus.appExitSpec = none := by
  refine ⟨rfl, rfl, rfl,
    (jobDetail_exitSpec_iff_exitCode parse0 [] fw0 fs0 detail0 rfl rfl).1
      rfl⟩

/-! ## C3: a malformed runtime payload fails the whole query -/

/-- A parser that rejects every payload (js-yaml on malformed input,
e.g. an unclosed flow mapping). -/
def parseFail : List Char → Except Unit (Option Unit) := fun _ => .error ()

def diag3 : List Char :=
  "[PAI_RUNTIME_ERROR_START] \x7b [PAI_RUNTIME_ERROR_END]".toList

def fs3 : FrameworkStatus :=
  { fs0 with
    frameworkState := "FRAMEWORK_COMPLETED"
    applicationExitCode := some 177
    applicationExitDiagnostics := some diag3 }

def fw3 : Framework :=
  { fw0 with frameworkStatus := some fs3 }

/-- Counterexample to C3: a diagnostics string with a runtime-error
span whose payload fails to parse. The source does not catch the
`yaml.safeLoad` exception, so `generateJobDetail` throws and `getJob`
reports the parse error: the whole query fails and no job detail (in
particular no container or launcher segment) is returned, contrary to
the claim that only the runtime segment degrades. -/
theorem getJob_parse_error_counterexample :
    fw3.frameworkStatus = some fs3 ∧
    fs3.applicationExitDiagnostics = some diag3 ∧
    indexOfLit runtimeStartLit diag3 = some 0 ∧
    indexOfLit runtimeEndLit diag3 = some 28 ∧
    parseFail (jsTrim (jsSubstring diag3 (0 + runtimeStartLit.length) 28)) =
      .error () ∧
    getJobOn200 parseFail [] fw3 = (none, some (GenErr.parseErr ())) := by
  refine ⟨rfl, rfl, by decide, by decide, rfl, by decide⟩

/-- C3 (amended): when the delimited runtime-error text fails to parse,
the exception propagates: `generateJobDetail` throws and the HTTP-200
branch of `getJob` reports the error instead of a job detail — the
overall query fails with the parse error and no segments are
returned. -/
theorem getJob_parse_error_propagates {ε α : Type}
    (parse : List Char → Except ε (Option α)) (l : List ExitSpecEntry)
    (fw : Framework) (fs : FrameworkStatus) (i : SummarizedInfo)
    (diag : List Char) (i1 i2 : Nat) (e : ε)
    (hst : fw.frameworkStatus = some fs)
    (hi : fw.summarizedFrameworkInfo = some i)
    (hdiag : fs.applicationExitDiagnostics = some diag)
    (hne : diag ≠ [])
    (h1 : indexOfLit runtimeStartLit diag = some i1)
    (h2 : indexOfLit runtimeEndLit diag = some i2)
    (hp : parse (jsTrim (jsSubstring diag (i1 + runtimeStartLit.length) i2)) =
      .error e) :
    getJobOn200 parse l fw = (none, some (GenErr.parseErr e)) := by
  have hext : extractRuntimeOutput parse fs.applicationExitDiagnostics =
      .error e := by
    unfold extractRuntimeOutput
    rw [hdiag]
    have : jsStrEmpty (some diag) = false := by
      simp [jsStrEmpty, List.isEmpty_iff, hne]
    rw [this]
    simp only [Bool.false_eq_true, if_false, h1, h2, hp]
  unfold getJobOn200 generateJobDetail
  simp only [hst, hi, hext]

/-- Witness for the amended C3 at the concrete fixture. -/
theorem getJob_parse_error_propagates_witness :
    fw3.frameworkStatus = some fs3 ∧
    fw3.summarizedFrameworkInfo = some ⟨some "START", some "default"⟩ ∧
    fs3.applicationExitDiagnostics = some diag3 ∧
    diag3 ≠ [] ∧
    indexOfLit runtimeStartLit diag3 = some 0 ∧
    indexOfLit runtimeEndLit diag3 = some 28 ∧
    parseFail (jsTrim (jsSubstring diag3 (0 + runtimeStartLit.length) 28)) =
      .error () ∧
    getJobOn200 parseFail [] fw3 = (none, some (GenErr.parseErr ())) := by
  refine ⟨rfl, rfl, rfl, by decide, by decide, by decide, rfl,
    getJob_parse_error_propagates parseFail [] fw3 fs3
      ⟨some "START", some "default"⟩ diag3 0 28 () rfl rfl rfl (by decide)
      (by decide) (by decide) rfl⟩

/-! ## C4: required versus best-effort provisioning sub-tasks -/

theorem firstErr_append (l1 l2 : List (Option ε)) :
    firstErr (l1 ++ l2) =
      match firstErr l1 with
      | some e => some e
      | none => firstErr l2 := by
  induction l1 with
  | nil => rfl
  | cons x rest ih =>
    cases x with
    | none => simpa [firstErr] using ih
    | some e => simp [firstErr]

theorem firstErr_eq_none_iff (l : List (Option ε)) :
    firstErr l = none ↔ ∀ x ∈ l, x = none := by
  induction l with
  | nil => simp [firstErr]
  | cons x rest ih =>
    cases x with
    | none => simpa [firstErr] using ih
    | some e => simp [firstErr]

/-- An environment in which every required operation and the key
generation succeed but the upload of the generated key files fails. -/
def env4 : PrepareEnv Unit :=
  { outputFolderErr := none
    logFolderErr := none
    tmpFolderErr := none
    yarnScriptErr := fun _ => none
    dockerScriptErr := fun _ => none
    jobConfigErr := none
    frameworkFileErr := none
    platformIsLinux := true
    keygenResult := .ok ("pub-key", "private-key")
    sshFileErr := fun _ => some () }

/-- Counterexample to C4: all six required sub-tasks succeed, SSH key
generation succeeds, but the SSH key-file upload fails — and
`_prepareJobContext` reports overall failure, because the upload error
inside the SSH branch is passed to `parallelCallback` (only the keygen
error itself is swallowed). -/
theorem prepare_ssh_upload_counterexample :
    firstErr (requiredTaskErrs env4 data0) = none ∧
    env4.keygenResult = .ok ("pub-key", "private-key") ∧
    prepareJobContextErr env4 "j1" data0 = some () := by
  exact ⟨by decide, rfl, by decide⟩

/-- C4 (amended): `_prepareJobContext` reports success iff the six
required sub-tasks succeed and the SSH branch reports no error, where
the SSH branch swallows key-generation failures (off Linux or when
keygen errors it never fails) but propagates a failure of the key-file
uploads. In particular, when key generation fails, overall success is
exactly the success of the required sub-tasks. -/
theorem prepareJobContext_failure_iff (env : PrepareEnv ε) (name : String)
    (data : JobData) :
    (prepareJobContextErr env name data = none ↔
      firstErr (requiredTaskErrs env data) = none ∧
        sshTask env name = none) ∧
    (∀ e0, env.keygenResult = .error e0 →
      (prepareJobContextErr env name data = none ↔
        firstErr (requiredTaskErrs env data) = none)) := by
  have hsplit : prepareJobContextErr env name data =
      match firstErr (requiredTaskErrs env data) with
      | some e => some e
      | none => firstErr [sshTask env name] := by
    unfold prepareJobContextErr
    exact firstErr_append _ _
  constructor
  · rw [hsplit]
    cases h : firstErr (requiredTaskErrs env data) with
    | some e => simp
    | none => cases h2 : sshTask env name <;> simp [firstErr, h2]
  · intro e0 hk
    have hssh : sshTask env name = none := by
      unfold sshTask
      rw [hk]
      cases env.platformIsLinux <;> simp
    rw [hsplit, hssh]
    cases h : firstErr (requiredTaskErrs env data) with
    | some e => simp
    | none => simp [firstErr]

/-- An environment in which key generation itself fails; everything
required succeeds. -/
def env5 : PrepareEnv Unit :=
  { env4 with keygenResult := .error () }

/-- Witness for the amended C4: with failed keygen the overall call
succeeds, and the equivalences evaluate as stated at the concrete
environment. -/
theorem prepareJobContext_failure_iff_witness :
    env5.keygenResult = .error () ∧
    firstErr (requiredTaskErrs env5 data0) = none ∧
    prepareJobContextErr env5 "j1" data0 = none := by
  refine ⟨rfl, by decide, ?_⟩
  exact ((prepareJobContext_failure_iff env5 "j1" data0).2 () rfl).mpr
    (by decide)

/-! ## C10: `putJob` rewrites the submitted payload in place -/

/-- The payload as the caller submitted it, with placeholders in the
path fields and a plain `jobName`. -/
def data10 : JobData :=
  { data0 with jobName := "j1" }

/-- Counterexample to C10: `putJob` does not leave the caller's `data`
unchanged — it overwrites `jobName` with the namespace-qualified
framework name and substitutes the placeholders inside `dataDir`
before any asynchronous work starts. -/
theorem putJob_mutates_counterexample :
    (putJobPrepare "hdfs://ns" "j1" (some "alice") data10).jobName ≠
      data10.jobName ∧
    (putJobPrepare "hdfs://ns" "j1" (some "alice") data10).dataDir ≠
      data10.dataDir := by
  constructor <;> decide

/-- C10 (amended): `putJob` normalizes the payload in place before
submission — `jobName` becomes the namespace-qualified framework name,
`outputDir` is defaulted when the original submission had none, and
the `$PAI_DEFAULT_FS_URI` / `$PAI_JOB_NAME` / `$PAI_USER_NAME`
placeholders are substituted into the four path fields — while every
other field of the payload is left unchanged. -/
theorem putJobPrepare_spec (hdfsUri name : String) (ns : Option String)
    (data : JobData) :
    letI fn := match ns with
      | some n => n ++ "~" ++ name
      | none => name
    letI base := if jsFalsyStr data.originalData_outputDir then
        hdfsUri ++ "/Output/" ++ data.userName ++ "/" ++ name
      else data.outputDir
    letI r := putJobPrepare hdfsUri name ns data
    r.jobName = fn ∧
    r.userName = data.userName ∧
    r.virtualCluster = data.virtualCluster ∧
    r.gpuType = data.gpuType ∧
    r.retryCount = data.retryCount ∧
    r.taskRoles = data.taskRoles ∧
    r.jobEnvs = data.jobEnvs ∧
    r.originalData_outputDir = data.originalData_outputDir ∧
    r.authFile = substPlaceholders hdfsUri name data.userName data.authFile ∧
    r.dataDir = substPlaceholders hdfsUri name data.userName data.dataDir ∧
    r.outputDir = substPlaceholders hdfsUri name data.userName base ∧
    r.codeDir = substPlaceholders hdfsUri name data.userName data.codeDir := by
  unfold putJobPrepare
  by_cases h : jsFalsyStr data.originalData_outputDir <;> simp [h]

/-! ## C7: extractor behaviour with both or neither marker present -/

theorem matchECE_none_of_no_lit (s : List Char)
    (h : indexOfLit eceLit s = none) : matchECE s = none := by
  induction s with
  | nil => rfl
  | cons c rest ih =>
    cases hp : eceLit.isPrefixOf (c :: rest) with
    | true => simp [indexOfLit, hp] at h
    | false =>
      simp only [indexOfLit, hp, Bool.false_eq_true, if_false,
        Option.map_eq_none'] at h
      simp [matchECE, hp, ih h]

theorem matchRuntimeSpan_none_of_no_lit (s : List Char)
    (h : indexOfLit runtimeStartLit s = none) :
    matchRuntimeSpan s = none := by
  induction s with
  | nil => rfl
  | cons c rest ih =>
    cases hp : runtimeStartLit.isPrefixOf (c :: rest) with
    | true => simp [indexOfLit, hp] at h
    | false =>
      simp only [indexOfLit, hp, Bool.false_eq_true, if_false,
        Option.map_eq_none'] at h
      simp [matchRuntimeSpan, hp, ih h]

theorem replaceRuntimeSpan_id_of_no_lit (s : List Char)
    (h : indexOfLit runtimeStartLit s = none) :
    replaceRuntimeSpan s = s := by
  unfold replaceRuntimeSpan
  rw [matchRuntimeSpan_none_of_no_lit s h]

/-- C7: a non-empty diagnostics string containing both the
container-exception anchors and the runtime-error span (with a payload
the YAML parser accepts) yields three non-null segments; a non-empty
string containing neither structured marker yields nullish container
and runtime segments and a launcher segment equal to the trimmed
original text. -/
theorem extractors_both_or_neither {ε α : Type}
    (parse : List Char → Except ε (Option α)) (diag : List Char)
    (il : Nat × Nat) (es i1 i2 : Nat) (v : α) :
    (diag ≠ [] → matchECE diag = some il →
      indexOfLit shellAnchorLit diag = some es →
      indexOfLit runtimeStartLit diag = some i1 →
      indexOfLit runtimeEndLit diag = some i2 →
      parse (jsTrim (jsSubstring diag (i1 + runtimeStartLit.length) i2)) =
        .ok (some v) →
      (extractContainerStderr (some diag)).isSome = true ∧
        extractRuntimeOutput parse (some diag) = .ok (some v) ∧
        (extractLauncherOutput (some diag)).isSome = true) ∧
    (diag ≠ [] → indexOfLit eceLit diag = none →
      indexOfLit runtimeStartLit diag = none →
      extractContainerStderr (some diag) = none ∧
        extractRuntimeOutput parse (some diag) = .ok none ∧
        extractLauncherOutput (some diag) = some (jsTrim diag)) := by
  constructor
  · intro h0 h1 h2 h3 h4 h5
    have hne : jsStrEmpty (some diag) = false := by
      simp [jsStrEmpty, List.isEmpty_iff, h0]
    refine ⟨?_, ?_, ?_⟩
    · simp [extractContainerStderr, hne, h1, h2]
    · simp [extractRuntimeOutput, hne, h3, h4, h5]
    · simp [extractLauncherOutput, hne]
  · intro h0 hece hstart
    have hne : jsStrEmpty (some diag) = false := by
      simp [jsStrEmpty, List.isEmpty_iff, h0]
    refine ⟨?_, ?_, ?_⟩
    · simp [extractContainerStderr, hne, matchECE_none_of_no_lit diag hece]
    · simp [extractRuntimeOutput, hne, hstart]
    · simp [extractLauncherOutput, hne, replaceRuntimeSpan,
        matchRuntimeSpan_none_of_no_lit diag hstart]

/-- A diagnostics fixture containing the container-exception anchors
and a runtime-error span. -/
def diagW1 : List Char :=
  ("ExitCodeException exitCode=177: boom\n" ++
    "at org.apache.hadoop.util.Shell.runCommand\n" ++
    "[PAI_RUNTIME_ERROR_START]oom[PAI_RUNTIME_ERROR_END]").toList

/-- A diagnostics fixture containing no structured marker. -/
def diagW2 : List Char := "  plain launcher text\n".toList

/-- The identity parser used by the C7 witness (payloads that are
plain scalars load as themselves). -/
def parseW : List Char → Except Unit (Option String) :=
  fun s => .ok (some s.asString)

set_option maxRecDepth 4000 in
/-- Witness for C7 at the two concrete fixtures. -/
theorem extractors_both_or_neither_witness :
    (diagW1 ≠ [] ∧ matchECE diagW1 = some (0, 31) ∧
      indexOfLit shellAnchorLit diagW1 = some 37 ∧
      indexOfLit runtimeStartLit diagW1 = some 80 ∧
      indexOfLit runtimeEndLit diagW1 = some 108 ∧
      parseW (jsTrim (jsSubstring diagW1 (80 + runtimeStartLit.length) 108)) =
        .ok (some "oom") ∧
      (extractContainerStderr (some diagW1)).isSome = true ∧
      extractRuntimeOutput parseW (some diagW1) = .ok (some "oom") ∧
      (extractLauncherOutput (some diagW1)).isSome = true) ∧
    (diagW2 ≠ [] ∧ indexOfLit eceLit diagW2 = none ∧
      indexOfLit runtimeStartLit diagW2 = none ∧
      extractContainerStderr (some diagW2) = none ∧
      extractRuntimeOutput parseW (some diagW2) = .ok none ∧
      extractLauncherOutput (some diagW2) = some (jsTrim diagW2)) := by
  have h1 := (extractors_both_or_neither parseW diagW1 (0, 31) 37 80 108
    "oom").1 (by decide) (by decide) (by decide) (by decide) (by decide)
    rfl
  have h2 := (extractors_both_or_neither parseW diagW2 (0, 0) 0 0 0
    "").2 (by decide) (by decide) (by decide)
  exact ⟨⟨by decide, by decide, by decide, by decide, by decide, rfl,
    h1.1, h1.2.1, h1.2.2⟩,
    ⟨by decide, by decide, by decide, h2.1, h2.2.1, h2.2.2⟩⟩

/-! ## C8: assoc-list lemmas for the JS-object model -/

theorem lookupJs_insertJs_self (l : List (String × β)) (k : String)
    (v : β) : lookupJs (insertJs l k v) k = some v := by
  induction l with
  | nil => simp [insertJs, lookupJs]
  | cons p rest ih =>
    cases hp : (p.1 == k) with
    | true => simp [insertJs, lookupJs, hp]
    | false =>
      simp only [insertJs, hp, Bool.false_eq_true, if_false]
      simpa [lookupJs, List.find?, hp] using ih

theorem lookupJs_insertJs_other (l : List (String × β)) (k k' : String)
    (v : β) (h : k' ≠ k) :
    lookupJs (insertJs l k v) k' = lookupJs l k' := by
  have hkk : (k == k') = false := by simpa using Ne.symm h
  induction l with
  | nil => simp [insertJs, lookupJs, List.find?, hkk]
  | cons p rest ih =>
    cases hp : (p.1 == k) with
    | true =>
      have hpk : p.1 = k := by simpa using hp
      have hp' : (p.1 == k') = false := by
        rw [hpk]; exact hkk
      simp [insertJs, lookupJs, List.find?, hp, hkk, hp']
    | false =>
      simp only [insertJs, hp, Bool.false_eq_true, if_false]
      cases hq : (p.1 == k') with
      | true => simp [lookupJs, List.find?, hq]
      | false => simpa [lookupJs, List.find?, hq] using ih

theorem hasKey_eq_isSome (l : List (String × β)) (k : String) :
    hasKey l k = (lookupJs l k).isSome := by
  induction l with
  | nil => rfl
  | cons p rest ih =>
    cases hp : (p.1 == k) with
    | true => simp [hasKey, lookupJs, List.find?, hp]
    | false => simpa [hasKey, lookupJs, List.find?, hp] using ih

theorem countKey_insertJs_self (l : List (String × β)) (k : String)
    (v : β) :
    countKey (insertJs l k v) k =
      if hasKey l k then countKey l k else countKey l k + 1 := by
  induction l with
  | nil => simp [insertJs, countKey, hasKey]
  | cons p rest ih =>
    cases hp : (p.1 == k) with
    | true => simp [insertJs, countKey, hasKey, hp]
    | false =>
      simp only [insertJs, hp, Bool.false_eq_true, if_false, countKey,
        List.countP_cons, hasKey, List.any_cons, Bool.false_or]
      simpa [countKey, hasKey, hp] using ih

theorem countKey_insertJs_other (l : List (String × β)) (k k' : String)
    (v : β) (h : k' ≠ k) :
    countKey (insertJs l k v) k' = countKey l k' := by
  have hkk : (k == k') = false := by simpa using Ne.symm h
  induction l with
  | nil => simp [insertJs, countKey, hkk]
  | cons p rest ih =>
    cases hp : (p.1 == k) with
    | true =>
      have hpk : p.1 = k := by simpa using hp
      have hp' : (p.1 == k') = false := by rw [hpk]; exact hkk
      simp [insertJs, countKey, List.countP_cons, hp, hkk, hp']
    | false =>
      simp only [insertJs, hp, Bool.false_eq_true, if_false, countKey,
        List.countP_cons]
      simpa [countKey] using ih

theorem countKey_zero_of_not_hasKey (l : List (String × β)) (k : String)
    (h : hasKey l k = false) : countKey l k = 0 := by
  unfold hasKey at h
  unfold countKey
  rw [List.countP_eq_zero]
  exact List.any_eq_false.mp h

theorem lookupJs_foldl_of_no_key (pairs : List (String × β))
    (acc : List (String × β)) (k : String)
    (h : ∀ p ∈ pairs, (p.1 == k) = false) :
    lookupJs (pairs.foldl (fun a p => insertJs a p.1 p.2) acc) k =
      lookupJs acc k := by
  induction pairs generalizing acc with
  | nil => rfl
  | cons q rest ih =>
    simp only [List.foldl_cons]
    rw [ih _ (fun p hp => h p (List.mem_cons_of_mem q hp))]
    refine lookupJs_insertJs_other acc q.1 k q.2 ?_
    have hq := h q (List.mem_cons_self q rest)
    intro contra
    rw [contra] at hq
    simp at hq

theorem lookupJs_foldl_filter_singleton (pairs : List (String × β))
    (acc : List (String × β)) (k : String) (v : β)
    (h : pairs.filter (fun p => p.1 == k) = [(k, v)]) :
    lookupJs (pairs.foldl (fun a p => insertJs a p.1 p.2) acc) k =
      some v := by
  induction pairs generalizing acc with
  | nil => simp at h
  | cons q rest ih =>
    cases hq : (q.1 == k) with
    | true =>
      rw [List.filter_cons, if_pos (by simpa using hq)] at h
      have hh := List.cons.inj h
      have hrest : ∀ p ∈ rest, (p.1 == k) = false := by
        intro p hp
        cases hc : (p.1 == k) with
        | false => rfl
        | true =>
          have hmem : p ∈ rest.filter (fun p => p.1 == k) :=
            List.mem_filter.mpr ⟨hp, hc⟩
          rw [hh.2] at hmem
          exact absurd hmem (List.not_mem_nil p)
      simp only [List.foldl_cons]
      rw [lookupJs_foldl_of_no_key rest _ k hrest, hh.1]
      exact lookupJs_insertJs_self acc k v
    | false =>
      rw [List.filter_cons, if_neg (by simp [hq])] at h
      simp only [List.foldl_cons]
      exact ih _ h

theorem lookupJs_foldl_nodup_mem (pairs : List (String × β))
    (acc : List (String × β)) (k : String) (v : β)
    (hnd : (pairs.map Prod.fst).Nodup) (hmem : (k, v) ∈ pairs) :
    lookupJs (pairs.foldl (fun a p => insertJs a p.1 p.2) acc) k =
      some v := by
  induction pairs generalizing acc with
  | nil => cases hmem
  | cons q rest ih =>
    simp only [List.map_cons, List.nodup_cons] at hnd
    rcases List.mem_cons.mp hmem with hq | hq
    · have hqk : q.1 = k := by rw [← hq]
      have hrest : ∀ p ∈ rest, (p.1 == k) = false := by
        intro p hp
        cases hc : (p.1 == k) with
        | false => rfl
        | true =>
          have hk : p.1 = k := by simpa using hc
          have : k ∈ rest.map Prod.fst := by
            simp only [List.mem_map]
            exact ⟨p, hp, hk⟩
          rw [← hqk] at this
          exact absurd this hnd.1
      simp only [List.foldl_cons]
      rw [lookupJs_foldl_of_no_key rest _ k hrest, ← hq]
      exact lookupJs_insertJs_self acc k v
    · simp only [List.foldl_cons]
      exact ih _ hnd.2 hq

theorem countKey_insertJs_le_one (acc : List (String × β)) (q : String × β)
    (hacc : ∀ k, countKey acc k ≤ 1) (k : String) :
    countKey (insertJs acc q.1 q.2) k ≤ 1 := by
  by_cases hk : k = q.1
  · subst hk
    rw [countKey_insertJs_self]
    by_cases hh : hasKey acc q.1
    · simpa [hh] using hacc q.1
    · simp only [hh, Bool.false_eq_true, if_false]
      rw [countKey_zero_of_not_hasKey acc q.1 (by simpa using hh)]
  · rw [countKey_insertJs_other acc q.1 k q.2 hk]
    exact hacc k

theorem countKey_foldl_le_one (pairs : List (String × β))
    (acc : List (String × β)) (hacc : ∀ k, countKey acc k ≤ 1)
    (k : String) :
    countKey (pairs.foldl (fun a p => insertJs a p.1 p.2) acc) k ≤ 1 := by
  induction pairs generalizing acc with
  | nil => exact hacc k
  | cons q rest ih =>
    simp only [List.foldl_cons]
    exact ih _ (countKey_insertJs_le_one acc q hacc)

/-! ## C8: default port injection -/

theorem hasKey_insertJs_other (l : List (String × β)) (k k' : String)
    (v : β) (h : k' ≠ k) :
    hasKey (insertJs l k v) k' = hasKey l k' := by
  rw [hasKey_eq_isSome, hasKey_eq_isSome, lookupJs_insertJs_other l k k' v h]

theorem lookup_defaultStep (obj : List (String × PortDef))
    (lbl L : String) (v : PortDef) (h : lookupJs obj L = some v) :
    lookupJs (if hasKey obj lbl then obj
      else insertJs obj lbl ⟨0, 1⟩) L = some v := by
  by_cases hk : hasKey obj lbl = true
  · rw [if_pos hk]; exact h
  · rw [if_neg hk]
    by_cases hL : L = lbl
    · subst hL
      exact absurd (by rw [hasKey_eq_isSome, h]; rfl) hk
    · rw [lookupJs_insertJs_other obj lbl L _ hL]
      exact h

theorem lookup_addDefaultPorts_of_some (obj : List (String × PortDef))
    (L : String) (v : PortDef) (h : lookupJs obj L = some v) :
    lookupJs (addDefaultPorts obj) L = some v := by
  simp only [addDefaultPorts, List.foldl_cons, List.foldl_nil]
  exact lookup_defaultStep _ "ssh" L v (lookup_defaultStep obj "http" L v h)

theorem addDefaultPorts_http_missing (obj : List (String × PortDef))
    (h : hasKey obj "http" = false) :
    lookupJs (addDefaultPorts obj) "http" = some ⟨0, 1⟩ ∧
      countKey (addDefaultPorts obj) "http" = 1 := by
  simp only [addDefaultPorts, List.foldl_cons, List.foldl_nil]
  rw [if_neg (show ¬(hasKey obj "http" = true) by simp [h])]
  have hl : lookupJs (insertJs obj "http" ⟨0, 1⟩) "http" = some ⟨0, 1⟩ :=
    lookupJs_insertJs_self obj "http" ⟨0, 1⟩
  have hc : countKey (insertJs obj "http" ⟨0, 1⟩) "http" = 1 := by
    rw [countKey_insertJs_self]
    simp [h, countKey_zero_of_not_hasKey obj "http" h]
  by_cases h2 : hasKey (insertJs obj "http" ⟨0, 1⟩) "ssh" = true
  · rw [if_pos h2]; exact ⟨hl, hc⟩
  · rw [if_neg h2]
    constructor
    · rw [lookupJs_insertJs_other _ "ssh" "http" _ (by decide)]
      exact hl
    · rw [countKey_insertJs_other _ "ssh" "http" _ (by decide)]
      exact hc

theorem addDefaultPorts_ssh_missing (obj : List (String × PortDef))
    (h : hasKey obj "ssh" = false) :
    lookupJs (addDefaultPorts obj) "ssh" = some ⟨0, 1⟩ ∧
      countKey (addDefaultPorts obj) "ssh" = 1 := by
  simp only [addDefaultPorts, List.foldl_cons, List.foldl_nil]
  have step : ∀ o1 : List (String × PortDef), hasKey o1 "ssh" = false →
      countKey o1 "ssh" = 0 →
      lookupJs (if hasKey o1 "ssh" then o1
        else insertJs o1 "ssh" ⟨0, 1⟩) "ssh" = some ⟨0, 1⟩ ∧
      countKey (if hasKey o1 "ssh" then o1
        else insertJs o1 "ssh" ⟨0, 1⟩) "ssh" = 1 := by
    intro o1 h1 h0
    rw [if_neg (by simp [h1])]
    refine ⟨lookupJs_insertJs_self o1 "ssh" ⟨0, 1⟩, ?_⟩
    rw [countKey_insertJs_self]
    simp [h1, h0]
  by_cases h1 : hasKey obj "http" = true
  · rw [if_pos h1]
    exact step obj h (countKey_zero_of_not_hasKey obj "ssh" h)
  · rw [if_neg h1]
    have hk : hasKey (insertJs obj "http" ⟨0, 1⟩) "ssh" = false := by
      rw [hasKey_insertJs_other obj "http" "ssh" _ (by decide)]
      exact h
    refine step _ hk ?_
    exact countKey_zero_of_not_hasKey _ "ssh" hk

theorem buildPortList_no_label (ports : List PortSpec) (L : String)
    (h : ports.all (fun p => !(p.label == L)) = true) :
    hasKey (buildPortList ports) L = false ∧
      countKey (buildPortList ports) L = 0 := by
  have hpairs : ∀ q ∈ ports.map
      (fun p => (p.label, (⟨p.beginAt, p.portNumber⟩ : PortDef))),
      (q.1 == L) = false := by
    intro q hq
    obtain ⟨p, hp, rfl⟩ := List.mem_map.mp hq
    have := List.all_eq_true.mp h p hp
    simpa using this
  have hlook : lookupJs (buildPortList ports) L = none := by
    unfold buildPortList buildJsObj
    rw [lookupJs_foldl_of_no_key _ [] L hpairs]
    rfl
  have hkey : hasKey (buildPortList ports) L = false := by
    rw [hasKey_eq_isSome, hlook]; rfl
  exact ⟨hkey, countKey_zero_of_not_hasKey _ L hkey⟩

theorem buildPortList_lookup_supplied (ports : List PortSpec) (L : String)
    (p : PortSpec) (h : ports.filter (fun q => q.label == L) = [p]) :
    lookupJs (buildPortList ports) L =
      some ⟨p.beginAt, p.portNumber⟩ := by
  have hpL : (p.label == L) = true := by
    have : p ∈ ports.filter (fun q => q.label == L) := by
      rw [h]; exact List.mem_singleton.mpr rfl
    exact (List.mem_filter.mp this).2
  have hfilter : (ports.map
      (fun q => (q.label, (⟨q.beginAt, q.portNumber⟩ : PortDef)))).filter
      (fun q => q.1 == L) = [(L, ⟨p.beginAt, p.portNumber⟩)] := by
    rw [List.filter_map]
    have : (fun q : String × PortDef => q.1 == L) ∘
        (fun q : PortSpec => (q.label, (⟨q.beginAt, q.portNumber⟩ : PortDef))) =
        fun q : PortSpec => q.label == L := rfl
    rw [this, h]
    simp only [List.map_cons, List.map_nil]
    have hpl : p.label = L := by simpa using hpL
    rw [hpl]
  unfold buildPortList buildJsObj
  exact lookupJs_foldl_filter_singleton _ [] L _ hfilter

/-- C8: for every task role of the submitted specification (assuming
unique role names, a JobSpec invariant), `generateFrameworkDescription`
publishes exactly the roleʼs computed port definitions; each of the
reserved labels `http`/`ssh` missing from the callerʼs port list gets
exactly one injected definition with start 0 and count 1, and every
label the caller supplied exactly once keeps its given start and
count. -/
theorem framework_default_ports (cfg : Config) (data : JobData) (i : Nat)
    (role : TaskRole) (hrole : data.taskRoles[i]? = some role)
    (hnodup : (data.taskRoles.map (fun r => r.name)).Nodup) :
    lookupJs (generateFrameworkDescription cfg data).taskRoles role.name =
      some (mkTaskRoleDescr data i role) ∧
    (mkTaskRoleDescr data i role).taskService.resource.portDefinitions =
      rolePortDefs role ∧
    (role.portList.all (fun p => !(p.label == "http")) = true →
      lookupJs (rolePortDefs role) "http" = some ⟨0, 1⟩ ∧
        countKey (rolePortDefs role) "http" = 1) ∧
    (role.portList.all (fun p => !(p.label == "ssh")) = true →
      lookupJs (rolePortDefs role) "ssh" = some ⟨0, 1⟩ ∧
        countKey (rolePortDefs role) "ssh" = 1) ∧
    (∀ L p, role.portList.filter (fun q => q.label == L) = [p] →
      lookupJs (rolePortDefs role) L =
        some ⟨p.beginAt, p.portNumber⟩) := by
  refine ⟨?_, rfl, ?_, ?_, ?_⟩
  · have htr : (generateFrameworkDescription cfg data).taskRoles =
        buildJsObj (data.taskRoles.enum.map
          (fun p => (p.2.name, mkTaskRoleDescr data p.1 p.2))) := rfl
    rw [htr]
    have hkeys : (data.taskRoles.enum.map
        (fun p => (p.2.name, mkTaskRoleDescr data p.1 p.2))).map Prod.fst =
        data.taskRoles.map (fun r => r.name) := by
      rw [List.map_map]
      have hfun : (Prod.fst ∘ (fun p : Nat × TaskRole =>
          (p.2.name, mkTaskRoleDescr data p.1 p.2))) =
          ((fun r : TaskRole => r.name) ∘ Prod.snd) := rfl
      rw [hfun, ← List.map_map, List.enum_map_snd]
    have hmem : (role.name, mkTaskRoleDescr data i role) ∈
        data.taskRoles.enum.map
          (fun p => (p.2.name, mkTaskRoleDescr data p.1 p.2)) := by
      have henum : (i, role) ∈ data.taskRoles.enum :=
        List.mk_mem_enum_iff_getElem?.mpr hrole
      exact List.mem_map_of_mem _ henum
    unfold buildJsObj
    refine lookupJs_foldl_nodup_mem _ [] role.name _ ?_ hmem
    rw [hkeys]
    exact hnodup
  · intro h
    obtain ⟨hk, _⟩ := buildPortList_no_label role.portList "http" h
    exact addDefaultPorts_http_missing _ hk
  · intro h
    obtain ⟨hk, _⟩ := buildPortList_no_label role.portList "ssh" h
    exact addDefaultPorts_ssh_missing _ hk
  · intro L p h
    exact lookup_addDefaultPorts_of_some _ L _
      (buildPortList_lookup_supplied role.portList L p h)

/-- Witness for C8 at the concrete fixture: `role1` supplies only an
`http` port `(5, 3)`, so `ssh` is injected and `http` kept. -/
theorem framework_default_ports_witness :
    data0.taskRoles[1]? = some role1 ∧
    (data0.taskRoles.map (fun r => r.name)).Nodup ∧
    lookupJs (generateFrameworkDescription cfg0 data0).taskRoles "worker" =
      some (mkTaskRoleDescr data0 1 role1) ∧
    (role1.portList.all (fun p => !(p.label == "ssh")) = true ∧
      lookupJs (rolePortDefs role1) "ssh" = some ⟨0, 1⟩ ∧
      countKey (rolePortDefs role1) "ssh" = 1) ∧
    (role1.portList.filter (fun q => q.label == "http") = [⟨"http", 5, 3⟩] ∧
      lookupJs (rolePortDefs role1) "http" = some ⟨5, 3⟩) := by
  have h := framework_default_ports cfg0 data0 1 role1 (by decide)
    (by decide)
  obtain ⟨hssh1, hssh2⟩ := h.2.2.2.1 (by decide)
  exact ⟨by decide, by decide, h.1, ⟨by decide, hssh1, hssh2⟩,
    ⟨by decide, h.2.2.2.2 "http" ⟨"http", 5, 3⟩ (by decide)⟩⟩

end PaiJob
